import Mathlib

/-!
Verification development for the media-snap capture backend.

The definitions below are shallow embeddings of the Python source under
`backend/`: numbers that are Python floats are modelled as rationals,
command lines as lists of strings, database and subprocess activity as an
explicit list of effects, and raised HTTP exceptions as `Except` errors.
The subprocess outcome (ffmpeg exit plus `os.path.getsize`) is passed to
each handler as an explicit `Except String Nat` argument, since it is an
external input to the code being modelled.
-/

namespace MediaSnap

/-! ## FFmpeg service (`backend/services/ffmpeg.py`) -/

/-- Python `f"{n:02d}"` for a non-negative integer: zero-pad to width 2. -/
def pad2 (n : ℕ) : String :=
  let s := toString n
  if s.length < 2 then "0" ++ s else s

/-- Python `f"{n:03d}"` for a non-negative integer: zero-pad to width 3. -/
def pad3 (n : ℕ) : String :=
  let s := toString n
  if s.length < 3 then
    if s.length < 2 then "00" ++ s else "0" ++ s
  else s

/-- Floor of a rational, computed directly on the numerator and
denominator so that it evaluates inside the kernel. -/
def qfloor (q : ℚ) : ℤ := q.num.fdiv q.den

/-- Round to nearest integer (half away from zero for our non-negative
uses), modelling the rounding done by Python `%.3f` formatting. -/
def qround (q : ℚ) : ℤ := qfloor (q + 1/2)

/-- Python float modulo `a % b` for `b > 0` (result in `[0, b)`). -/
def pymod (a b : ℚ) : ℚ := a - b * (qfloor (a / b) : ℚ)

/-- Embedding of `_seconds_to_timecode`: seconds to an `HH:MM:SS.mmm`
timecode.  `h = int(seconds // 3600)`, `m = int((seconds % 3600) // 60)`,
`s = seconds % 60` rendered by `f"{s:06.3f}"` (three decimals, width 6,
zero-filled). -/
def seconds_to_timecode (seconds : ℚ) : String :=
  let h : ℤ := qfloor (seconds / 3600)
  let m : ℤ := qfloor (pymod seconds 3600 / 60)
  let s : ℚ := pymod seconds 60
  let ms : ℕ := (qround (s * 1000)).toNat
  pad2 h.toNat ++ ":" ++ pad2 m.toNat ++ ":" ++ pad2 (ms / 1000) ++ "." ++ pad3 (ms % 1000)

/-- Embedding of the command list built by `extract_screenshot`:
a single input-level seek (`-ss` before `-i`) to the requested timestamp,
then one frame at the configured JPEG quality. -/
def extract_screenshot_cmd (ffmpeg_path media_path : String)
    (timestamp_seconds : ℚ) (screenshot_quality : ℕ) (output_path : String) :
    List String :=
  [ffmpeg_path,
   "-ss", seconds_to_timecode timestamp_seconds,
   "-i", media_path,
   "-frames:v", "1",
   "-q:v", toString screenshot_quality,
   "-y",
   output_path]

/-- Embedding of the command list built by `extract_clip`: the `precise`
flag selects between full re-encode and stream copy. -/
def extract_clip_cmd (ffmpeg_path media_path : String)
    (start_seconds duration_seconds : ℚ) (precise : Bool)
    (output_path : String) : List String :=
  let ts_start := seconds_to_timecode start_seconds
  let ts_dur := seconds_to_timecode duration_seconds
  if precise then
    [ffmpeg_path,
     "-ss", ts_start,
     "-i", media_path,
     "-t", ts_dur,
     "-c:v", "libx264",
     "-crf", "18",
     "-preset", "fast",
     "-c:a", "aac",
     "-b:a", "192k",
     "-movflags", "+faststart",
     "-y",
     output_path]
  else
    [ffmpeg_path,
     "-ss", ts_start,
     "-i", media_path,
     "-t", ts_dur,
     "-c", "copy",
     "-avoid_negative_ts", "make_zero",
     "-movflags", "+faststart",
     "-y",
     output_path]

/-! ## Data model (`backend/models.py`) -/

/-- Normalized playback session (pydantic `Session`). -/
structure Session where
  session_id : String
  source : String
  title : String
  subtitle : String := ""
  media_path : String
  position_seconds : ℚ
  duration_seconds : ℚ
  thumbnail_url : String := ""
  year : Option ℤ := none
deriving DecidableEq, Repr

/-- Pydantic `ScreenshotRequest`. -/
structure ScreenshotRequest where
  session_id : String
  offset_seconds : ℚ := 0
deriving DecidableEq, Repr

/-- Pydantic `ClipRequest`. -/
structure ClipRequest where
  session_id : String
  relative_seconds : Option ℚ := none
  start_seconds : Option ℚ := none
  end_seconds : Option ℚ := none
deriving DecidableEq, Repr

/-- One row of the `captures` table (`backend/database.py`). -/
structure CaptureRecord where
  id : String
  source : String
  media_title : String
  media_path : String
  timestamp_seconds : ℚ
  capture_type : String
  file_path : String
  file_name : String
  file_size_bytes : ℕ
  duration_seconds : Option ℚ
  status : String
  error_message : Option String
  created_at : String
deriving DecidableEq, Repr

/-- Pydantic `Capture` response body. -/
structure Capture where
  id : String
  source : String
  media_title : String
  timestamp_seconds : ℚ
  capture_type : String
  file_name : String
  file_url : String
  file_size_bytes : ℕ := 0
  duration_seconds : Option ℚ := none
  status : String
  error_message : Option String := none
  created_at : String
deriving DecidableEq, Repr

/-! ## Effects and errors -/

/-- Raised HTTP exceptions of the captures router, by status code. -/
inductive ApiError where
  | notFound (msg : String)
  | badRequest (msg : String)
  | internalError (msg : String)
  | queryValidation
deriving DecidableEq, Repr

/-- Observable side effects of the router handlers: ffmpeg invocations,
rows written to the captures table, and spawned background tasks. -/
inductive Eff where
  | extractShot (media_path : String) (timestamp : ℚ) (output_path : String)
  | extractClipJob (media_path : String) (start duration : ℚ) (output_path : String)
  | insertRow (r : CaptureRecord)
  | updateComplete (id : String) (file_size : ℕ)
  | updateFailed (id : String) (error_message : String)
  | spawnClipTask (id media_path : String) (start duration : ℚ) (output_path : String)
deriving DecidableEq, Repr

/-! ## Session manager (`backend/services/session_manager.py`) -/

/-- One adapter result as delivered by `asyncio.gather` with
`return_exceptions=True`: either an exception or a session list. -/
abbrev AdapterResult := Except String (List Session)

/-- The loop over gathered results in `get_all_sessions`: exceptions are
logged and skipped, successful lists are concatenated in adapter order. -/
def merge_adapter_results (results : List AdapterResult) : List Session :=
  results.foldl
    (fun acc r => match r with
      | .error _ => acc
      | .ok l => acc ++ l)
    []

/-- The in-memory session cache, keyed by session id; the entry consed
most recently shadows earlier ones, like repeated dict assignment. -/
abbrev SessionCache := List (String × Session)

/-- Embedding of `get_all_sessions`: merge the gathered adapter results,
clear the cache, and repopulate it from the merged list. -/
def get_all_sessions (results : List AdapterResult) (cache : SessionCache) :
    List Session × SessionCache :=
  let sessions := merge_adapter_results results
  let cleared : SessionCache := []
  (sessions, sessions.foldl (fun c s => (s.session_id, s) :: c) cleared)

/-- Embedding of `get_cached_session`: dictionary lookup by id. -/
def get_cached_session (cache : SessionCache) (session_id : String) :
    Option Session :=
  (cache.lookup session_id)

/-! ## Adapter subtitle derivation (`backend/services/plex.py`,
`backend/services/jellyfin.py`) -/

/-- Python `int(...)` on a decimal digit string, as an option: `none`
models the `ValueError` raised on anything else. -/
def py_to_nat (s : String) : Option ℕ :=
  if s.data ≠ [] ∧ s.data.all Char.isDigit then
    some (s.data.foldl (fun acc c => acc * 10 + (c.toNat - 48)) 0)
  else none

/-- Python `s.strip(chars)`: drop characters of the set from both ends. -/
def py_strip (chars : List Char) (s : String) : String :=
  String.mk (((s.data.dropWhile (chars.contains ·)).reverse.dropWhile
    (chars.contains ·)).reverse)

/-- The Plex episode subtitle expression: the XML attributes `parentIndex`
and `index` are strings, tested for truthiness (non-emptiness) before
being parsed by `int(...)`; a parse failure (`none`) models the Python
`ValueError` escaping `get_sessions`. -/
def plex_episode_subtitle (season ep ep_title : String) : Option String :=
  if season ≠ "" ∧ ep ≠ "" then
    match py_to_nat season, py_to_nat ep with
    | some sn, some en =>
        some ("S" ++ pad2 sn ++ "E" ++ pad2 en ++ " — " ++ ep_title)
    | _, _ => none
  else some ep_title

/-- The Jellyfin episode subtitle expression: `ParentIndexNumber` and
`IndexNumber` default to 0 and are tested for integer truthiness. -/
def jellyfin_episode_subtitle (season ep : ℕ) (ep_title : String) : String :=
  if season ≠ 0 ∧ ep ≠ 0 then
    "S" ++ pad2 season ++ "E" ++ pad2 ep ++ " — " ++ ep_title
  else ep_title

/-! ## Captures router (`backend/routers/captures.py`) -/

/-- Python `os.path.join` for two components. -/
def path_join (a b : String) : String :=
  if b.startsWith "/" then b
  else if a = "" then b
  else if a.endsWith "/" then a ++ b
  else a ++ "/" ++ b

/-- The denormalized display title
`f"{session.title} — {session.subtitle}".strip(" —")`. -/
def media_title_of (s : Session) : String :=
  py_strip [' ', '—'] (s.title ++ " — " ++ s.subtitle)

/-- Embedding of `take_screenshot`: resolve the session from the cache,
clamp the timestamp, run extraction inline, insert the record, and either
return the capture or surface the failure as HTTP 500. -/
def take_screenshot (cache : SessionCache) (req : ScreenshotRequest)
    (extraction : Except String ℕ) (capture_id now capture_dir : String) :
    List Eff × Except ApiError Capture :=
  match get_cached_session cache req.session_id with
  | none => ([], .error (.notFound "Session not found. Refresh the sessions list."))
  | some session =>
    let ts := min (max 0 (session.position_seconds + req.offset_seconds))
      session.duration_seconds
    let file_name := capture_id ++ ".jpg"
    let output_path := path_join capture_dir file_name
    match extraction with
    | .ok size =>
      ([.extractShot session.media_path ts output_path,
        .insertRow
          { id := capture_id, source := session.source,
            media_title := media_title_of session,
            media_path := session.media_path, timestamp_seconds := ts,
            capture_type := "screenshot", file_path := output_path,
            file_name := file_name, file_size_bytes := size,
            duration_seconds := none, status := "complete",
            error_message := none, created_at := now }],
       .ok
         { id := capture_id, source := session.source,
           media_title := media_title_of session, timestamp_seconds := ts,
           capture_type := "screenshot", file_name := file_name,
           file_url := "/captures/" ++ file_name, file_size_bytes := size,
           status := "complete", created_at := now })
    | .error e =>
      ([.extractShot session.media_path ts output_path,
        .insertRow
          { id := capture_id, source := session.source,
            media_title := media_title_of session,
            media_path := session.media_path, timestamp_seconds := ts,
            capture_type := "screenshot", file_path := output_path,
            file_name := file_name, file_size_bytes := 0,
            duration_seconds := none, status := "failed",
            error_message := some e, created_at := now }],
       .error (.internalError ("Screenshot failed: " ++ e)))

/-- The start/end resolution block of `take_clip`: the relative branch is
taken whenever `relative_seconds` is present, the explicit branch needs
both bounds, and anything else raises HTTP 400. -/
def resolve_clip_bounds (session : Session) (req : ClipRequest) :
    Except ApiError (ℚ × ℚ) :=
  match req.relative_seconds with
  | some rel =>
    let start := max 0 (session.position_seconds + rel)
    let stop := session.position_seconds
    if start > stop then .ok (stop, start) else .ok (start, stop)
  | none =>
    match req.start_seconds, req.end_seconds with
    | some s, some e => .ok (max 0 s, min e session.duration_seconds)
    | _, _ => .error (.badRequest "Provide relative_seconds or start_seconds + end_seconds")

/-- Embedding of `take_clip`: resolve the session and bounds, validate the
duration, insert the `pending` row, spawn the background task, and return
the `pending` capture.  All rejections happen before any effect. -/
def take_clip (cache : SessionCache) (req : ClipRequest)
    (capture_id now capture_dir : String) :
    List Eff × Except ApiError Capture :=
  match get_cached_session cache req.session_id with
  | none => ([], .error (.notFound "Session not found. Refresh the sessions list."))
  | some session =>
    match resolve_clip_bounds session req with
    | .error e => ([], .error e)
    | .ok (start, stop) =>
      let duration := stop - start
      if duration ≤ 0 then
        ([], .error (.badRequest "Clip duration must be positive"))
      else if duration > 600 then
        ([], .error (.badRequest "Maximum clip duration is 10 minutes"))
      else
        let file_name := capture_id ++ ".mp4"
        let output_path := path_join capture_dir file_name
        ([.insertRow
            { id := capture_id, source := session.source,
              media_title := media_title_of session,
              media_path := session.media_path, timestamp_seconds := start,
              capture_type := "clip", file_path := output_path,
              file_name := file_name, file_size_bytes := 0,
              duration_seconds := some duration, status := "pending",
              error_message := none, created_at := now },
          .spawnClipTask capture_id session.media_path start duration output_path],
         .ok
           { id := capture_id, source := session.source,
             media_title := media_title_of session, timestamp_seconds := start,
             capture_type := "clip", file_name := file_name,
             file_url := "/captures/" ++ file_name,
             duration_seconds := some duration, status := "pending",
             created_at := now })

/-- Embedding of `_process_clip`, the detached background task: run the
clip extraction and then perform exactly one terminal update of the row,
to `complete` with the measured size or to `failed` with the error text. -/
def process_clip (capture_id media_path : String) (start duration : ℚ)
    (output_path : String) (extraction : Except String ℕ) : List Eff :=
  .extractClipJob media_path start duration output_path ::
    match extraction with
    | .ok size => [.updateComplete capture_id size]
    | .error e => [.updateFailed capture_id e]

/-- The `WHERE capture_type = ?` clause, guarded by Python truthiness of
the optional query parameter. -/
def filter_by_type (rows : List CaptureRecord) (capture_type : Option String) :
    List CaptureRecord :=
  match capture_type with
  | some t => if t = "" then rows else rows.filter (fun r => r.capture_type == t)
  | none => rows

/-- `ORDER BY created_at DESC` over ISO-8601 text timestamps. -/
def order_created_desc (rows : List CaptureRecord) : List CaptureRecord :=
  rows.mergeSort (fun a b => decide (b.created_at ≤ a.created_at))

/-- Embedding of `list_captures` including the FastAPI query-parameter
constraints `limit : ge=1, le=200, default 50` and `offset : ge=0,
default 0`, which are enforced before the handler body (and hence before
any store read) runs. -/
def list_captures (limit_param offset_param : Option ℤ)
    (capture_type : Option String) (rows : List CaptureRecord) :
    Except ApiError (List CaptureRecord) :=
  let lim := limit_param.getD 50
  let off := offset_param.getD 0
  if lim < 1 ∨ 200 < lim ∨ off < 0 then .error .queryValidation
  else
    .ok ((((order_created_desc (filter_by_type rows capture_type)).drop
      off.toNat).take lim.toNat))

/-! ## Statements taken from the words of the spec -/

/-- Modelled from the words of the spec for comparison with the code:
`clamp(x, lo, hi)`. -/
def spec_clamp (x lo hi : ℚ) : ℚ := min (max x lo) hi

end MediaSnap

namespace MediaSnap

/-! ## General lemmas -/

/-- Every timecode produced by `seconds_to_timecode` contains at least the
two colons of the `HH:MM:SS.mmm` shape. -/
theorem two_le_timecode_colon_count (q : ℚ) :
    2 ≤ ((seconds_to_timecode q).data.count ':') := by
  unfold seconds_to_timecode
  simp only [String.data_append, List.count_append]
  have h1 : List.count ':' [':'] = 1 := by decide
  omega

/-- A timecode is never equal to a string with fewer than two colons, in
particular never to a bare ffmpeg flag. -/
theorem seconds_to_timecode_ne (q : ℚ) (s : String)
    (h : s.data.count ':' < 2) : seconds_to_timecode q ≠ s := by
  intro he
  have := two_le_timecode_colon_count q
  rw [he] at this
  omega

end MediaSnap

namespace MediaSnap

/-! ## C1 -/

/-- C1 counterexample: at timestamp 100 the command built by
`extract_screenshot` holds exactly one `-ss` seek stage, whose target
(argument position 2) is the timecode of the full requested timestamp;
there is no second fine-grained stage, so the claimed coarse-then-fine
pair of seek stages is absent. -/
theorem c1_counterexample :
    (extract_screenshot_cmd "ffmpeg" "/media/movie.mkv" 100 2
      "/data/captures/a.jpg").count "-ss" = 1 ∧
    (extract_screenshot_cmd "ffmpeg" "/media/movie.mkv" 100 2
      "/data/captures/a.jpg").get? 2 = some (seconds_to_timecode 100) := by
  constructor
  · have htc : seconds_to_timecode 100 ≠ "-ss" :=
      seconds_to_timecode_ne _ _ (by decide)
    have h2 : toString (2 : ℕ) ≠ "-ss" := by decide
    simp [extract_screenshot_cmd, List.count_cons, htc, h2]
  · rfl

/-- C1 (amended): for every screenshot extraction the engine performs a
single fast input-level keyframe-snapped seek directly to the requested
timestamp — one `-ss` stage placed before `-i` — and then emits exactly
one frame; there is no second fine-grained seek stage. -/
theorem c1_single_input_seek (f mp out : String) (ts : ℚ) (q : ℕ)
    (hf : f ≠ "-ss") (hmp : mp ≠ "-ss") (hout : out ≠ "-ss")
    (hq : toString q ≠ "-ss") :
    extract_screenshot_cmd f mp ts q out =
      [f, "-ss", seconds_to_timecode ts, "-i", mp,
       "-frames:v", "1", "-q:v", toString q, "-y", out] ∧
    (extract_screenshot_cmd f mp ts q out).count "-ss" = 1 := by
  refine ⟨rfl, ?_⟩
  have htc : seconds_to_timecode ts ≠ "-ss" :=
    seconds_to_timecode_ne _ _ (by decide)
  simp [extract_screenshot_cmd, List.count_cons, hf, hmp, hout, hq, htc]

/-- C1 witness: the amended theorem applied at a concrete invocation. -/
theorem c1_single_input_seek_witness :
    ("ffmpeg" ≠ "-ss") ∧
    (extract_screenshot_cmd "ffmpeg" "/media/movie.mkv" 95 2
      "/data/captures/b.jpg").count "-ss" = 1 :=
  ⟨by decide,
   (c1_single_input_seek "ffmpeg" "/media/movie.mkv" "/data/captures/b.jpg"
     95 2 (by decide) (by decide) (by decide) (by decide)).2⟩

/-! ## C6 -/

/-- C6 counterexample: for the fast/copy policy at a concrete invocation,
the command stream-copies every stream (`-c copy`) and holds no audio
re-encode options at all — no `-c:a`, no `aac`, no bitrate `192k` — so
the claimed audio-only re-encode is absent from the fast command. -/
theorem c6_counterexample :
    (extract_clip_cmd "ffmpeg" "/media/movie.mkv" 170 30 false
        "/data/captures/c.mp4").get? 7 = some "-c" ∧
    (extract_clip_cmd "ffmpeg" "/media/movie.mkv" 170 30 false
        "/data/captures/c.mp4").get? 8 = some "copy" ∧
    "-c:a" ∉ extract_clip_cmd "ffmpeg" "/media/movie.mkv" 170 30 false
        "/data/captures/c.mp4" ∧
    "aac" ∉ extract_clip_cmd "ffmpeg" "/media/movie.mkv" 170 30 false
        "/data/captures/c.mp4" ∧
    "192k" ∉ extract_clip_cmd "ffmpeg" "/media/movie.mkv" 170 30 false
        "/data/captures/c.mp4" := by
  have hca1 : seconds_to_timecode 170 ≠ "-c:a" :=
    seconds_to_timecode_ne _ _ (by decide)
  have hca2 : seconds_to_timecode 30 ≠ "-c:a" :=
    seconds_to_timecode_ne _ _ (by decide)
  have haac1 : seconds_to_timecode 170 ≠ "aac" :=
    seconds_to_timecode_ne _ _ (by decide)
  have haac2 : seconds_to_timecode 30 ≠ "aac" :=
    seconds_to_timecode_ne _ _ (by decide)
  have hb1 : seconds_to_timecode 170 ≠ "192k" :=
    seconds_to_timecode_ne _ _ (by decide)
  have hb2 : seconds_to_timecode 30 ≠ "192k" :=
    seconds_to_timecode_ne _ _ (by decide)
  refine ⟨rfl, rfl, ?_, ?_, ?_⟩
  · simp [extract_clip_cmd]
    exact ⟨fun h => hca1 h.symm, fun h => hca2 h.symm⟩
  · simp [extract_clip_cmd]
    exact ⟨fun h => haac1 h.symm, fun h => haac2 h.symm⟩
  · simp [extract_clip_cmd]
    exact ⟨fun h => hb1 h.symm, fun h => hb2 h.symm⟩

/-- C6 (amended): the fast/copy-policy clip command seeks to the start
timecode (`-ss` before `-i`), stream-copies all streams bit for bit
(`-c copy`, with no audio re-encode options), normalizes negative
timestamps to zero, finalizes the container for progressive playback,
and expresses the cut length as a `-t` duration timecode — no `-to` end
time appears. -/
theorem c6_fast_copy (f mp out : String) (start dur : ℚ)
    (hf1 : f ≠ "-c:a") (hmp1 : mp ≠ "-c:a") (hout1 : out ≠ "-c:a")
    (hf2 : f ≠ "-to") (hmp2 : mp ≠ "-to") (hout2 : out ≠ "-to") :
    extract_clip_cmd f mp start dur false out =
      [f, "-ss", seconds_to_timecode start, "-i", mp,
       "-t", seconds_to_timecode dur, "-c", "copy",
       "-avoid_negative_ts", "make_zero", "-movflags", "+faststart",
       "-y", out] ∧
    "-c:a" ∉ extract_clip_cmd f mp start dur false out ∧
    "-to" ∉ extract_clip_cmd f mp start dur false out := by
  have h1 : seconds_to_timecode start ≠ "-c:a" :=
    seconds_to_timecode_ne _ _ (by decide)
  have h2 : seconds_to_timecode dur ≠ "-c:a" :=
    seconds_to_timecode_ne _ _ (by decide)
  have h3 : seconds_to_timecode start ≠ "-to" :=
    seconds_to_timecode_ne _ _ (by decide)
  have h4 : seconds_to_timecode dur ≠ "-to" :=
    seconds_to_timecode_ne _ _ (by decide)
  refine ⟨rfl, ?_, ?_⟩
  · simp [extract_clip_cmd]
    exact ⟨fun h => hf1 h.symm, fun h => h1 h.symm, fun h => hmp1 h.symm,
      fun h => h2 h.symm, fun h => hout1 h.symm⟩
  · simp [extract_clip_cmd]
    exact ⟨fun h => hf2 h.symm, fun h => h3 h.symm, fun h => hmp2 h.symm,
      fun h => h4 h.symm, fun h => hout2 h.symm⟩

/-- C6 witness: the amended theorem applied at a concrete invocation. -/
theorem c6_fast_copy_witness :
    ("ffmpeg" ≠ "-c:a") ∧
    "-c:a" ∉ extract_clip_cmd "ffmpeg" "/media/show.mkv" 10 60 false
      "/data/captures/d.mp4" :=
  ⟨by decide,
   (c6_fast_copy "ffmpeg" "/media/show.mkv" "/data/captures/d.mp4" 10 60
     (by decide) (by decide) (by decide) (by decide) (by decide) (by decide)).2.1⟩

end MediaSnap

namespace MediaSnap

/-! ## Demo sessions used by witnesses and counterexamples -/

/-- A cached session at playhead 200 of a 1000-second movie. -/
def movie_session : Session :=
  { session_id := "plex-1", source := "plex", title := "Movie",
    media_path := "/media/movie.mkv", position_seconds := 200,
    duration_seconds := 1000 }

/-- A cached session at playhead 100 of a 120-second movie. -/
def short_session : Session :=
  { session_id := "plex-9", source := "plex", title := "Short",
    media_path := "/media/short.mkv", position_seconds := 100,
    duration_seconds := 120 }

/-- A cached session at playhead 200 of a 10000-second recording. -/
def long_session : Session :=
  { session_id := "jf-1", source := "jellyfin", title := "Show",
    media_path := "/media/show.mkv", position_seconds := 200,
    duration_seconds := 10000 }

/-! ## C2 -/

/-- C2: a clip request that supplies `relative_seconds` against a cached
session resolves to start `max(0, position + relative)` and end
`position`, swapped whenever start ended up greater than end — that is,
to the ordered pair of those two values; in particular
`relative_seconds = -30` at position 200 yields start 170, end 200,
duration 30. -/
theorem c2_relative_bounds (session : Session) (sid : String) (rel : ℚ)
    (ss es : Option ℚ) :
    resolve_clip_bounds session
      { session_id := sid, relative_seconds := some rel,
        start_seconds := ss, end_seconds := es } =
      .ok (min (max 0 (session.position_seconds + rel)) session.position_seconds,
           max (max 0 (session.position_seconds + rel)) session.position_seconds) ∧
    resolve_clip_bounds movie_session
      { session_id := "plex-1", relative_seconds := some (-30) } =
      .ok (170, 200) ∧
    (200 : ℚ) - 170 = 30 := by
  refine ⟨?_, ?_, by norm_num⟩
  · unfold resolve_clip_bounds
    simp only
    rcases le_or_lt (max 0 (session.position_seconds + rel))
      session.position_seconds with h | h
    · rw [if_neg (not_lt.mpr h), min_eq_left h, max_eq_right h]
    · rw [if_pos h, min_eq_right h.le, max_eq_left h.le]
  · norm_num [resolve_clip_bounds, movie_session]

/-! ## C3 -/

/-- C3: the screenshot extraction timestamp equals
`clamp(position + offset, 0, duration)`; whenever the cached session
reports a non-negative duration it is never negative and never exceeds
`duration_seconds`. -/
theorem c3_timestamp_clamped (cache : SessionCache) (req : ScreenshotRequest)
    (session : Session) (extraction : Except String ℕ) (id now dir : String)
    (hs : get_cached_session cache req.session_id = some session)
    (hd : 0 ≤ session.duration_seconds) :
    (take_screenshot cache req extraction id now dir).1.head? =
      some (.extractShot session.media_path
        (spec_clamp (session.position_seconds + req.offset_seconds) 0
          session.duration_seconds)
        (path_join dir (id ++ ".jpg"))) ∧
    0 ≤ spec_clamp (session.position_seconds + req.offset_seconds) 0
        session.duration_seconds ∧
    spec_clamp (session.position_seconds + req.offset_seconds) 0
        session.duration_seconds ≤ session.duration_seconds := by
  have hc : min (max 0 (session.position_seconds + req.offset_seconds))
      session.duration_seconds =
      spec_clamp (session.position_seconds + req.offset_seconds) 0
        session.duration_seconds := by
    rw [spec_clamp, max_comm]
  refine ⟨?_, ?_, ?_⟩
  · unfold take_screenshot
    rw [hs]
    cases extraction <;> simp [hc]
  · rw [spec_clamp]
    exact le_min (le_max_right _ _) hd
  · exact min_le_right _ _

/-- C3 witness: position 100, duration 120, offset 50 — the extraction
timestamp is clamped to 120, not 150. -/
theorem c3_timestamp_clamped_witness :
    (0 : ℚ) ≤ short_session.duration_seconds ∧
    (0 ≤ spec_clamp (short_session.position_seconds + 50) 0
        short_session.duration_seconds ∧
     spec_clamp (short_session.position_seconds + 50) 0
        short_session.duration_seconds ≤ short_session.duration_seconds) ∧
    spec_clamp (short_session.position_seconds + 50) 0
        short_session.duration_seconds = 120 :=
  have happ := c3_timestamp_clamped [("plex-9", short_session)]
    { session_id := "plex-9", offset_seconds := 50 } short_session
    (.ok 1000) "id9" "t9" "/data/captures" rfl
    (by norm_num [short_session])
  ⟨by norm_num [short_session], ⟨happ.2.1, happ.2.2⟩,
   by norm_num [spec_clamp, short_session]⟩

end MediaSnap

namespace MediaSnap

/-! ## C4 -/

/-- C4: once the bounds of a clip request resolve, a non-positive
computed duration or a duration above 600 seconds is rejected with a
validation error, with an empty effect trace — no record is inserted and
no background extraction is spawned for a rejected request. -/
theorem c4_duration_validated (cache : SessionCache) (req : ClipRequest)
    (session : Session) (start stop : ℚ) (id now dir : String)
    (hs : get_cached_session cache req.session_id = some session)
    (hb : resolve_clip_bounds session req = .ok (start, stop)) :
    (stop - start ≤ 0 →
      take_clip cache req id now dir =
        ([], .error (.badRequest "Clip duration must be positive"))) ∧
    (600 < stop - start →
      take_clip cache req id now dir =
        ([], .error (.badRequest "Maximum clip duration is 10 minutes"))) := by
  constructor
  · intro h
    simp [take_clip, hs, hb, h]
  · intro h
    have h0 : ¬ stop - start ≤ 0 := by linarith
    simp [take_clip, hs, hb, h0, h]

/-- C4 witness: reversed explicit bounds (300, 200) give duration −100
and are rejected; bounds (0, 601) give duration 601 and are rejected. -/
theorem c4_duration_validated_witness :
    take_clip [("jf-1", long_session)]
      { session_id := "jf-1", start_seconds := some 300,
        end_seconds := some 200 } "id1" "t1" "/data/captures" =
      ([], .error (.badRequest "Clip duration must be positive")) ∧
    take_clip [("jf-1", long_session)]
      { session_id := "jf-1", start_seconds := some 0,
        end_seconds := some 601 } "id2" "t1" "/data/captures" =
      ([], .error (.badRequest "Maximum clip duration is 10 minutes")) :=
  ⟨(c4_duration_validated [("jf-1", long_session)]
      { session_id := "jf-1", start_seconds := some 300,
        end_seconds := some 200 } long_session 300 200 "id1" "t1"
      "/data/captures" rfl
      (by norm_num [resolve_clip_bounds, long_session])).1 (by norm_num),
   (c4_duration_validated [("jf-1", long_session)]
      { session_id := "jf-1", start_seconds := some 0,
        end_seconds := some 601 } long_session 0 601 "id2" "t1"
      "/data/captures" rfl
      (by norm_num [resolve_clip_bounds, long_session])).2 (by norm_num)⟩

/-! ## C5 -/

/-- C5 counterexample: a request supplying both shapes at once —
`relative_seconds` together with both explicit bounds — is not rejected:
the relative shape silently takes precedence and the request is accepted
as a pending clip. -/
theorem c5_counterexample :
    ∃ c, (take_clip [("plex-1", movie_session)]
      { session_id := "plex-1", relative_seconds := some (-30),
        start_seconds := some 0, end_seconds := some 10 }
      "id5" "t5" "/data/captures").2 = .ok c ∧ c.status = "pending" := by
  have hs : get_cached_session [("plex-1", movie_session)] "plex-1" =
      some movie_session := rfl
  have hb : resolve_clip_bounds movie_session
      { session_id := "plex-1", relative_seconds := some (-30),
        start_seconds := some 0, end_seconds := some 10 } =
      .ok (170, 200) := by
    norm_num [resolve_clip_bounds, movie_session]
  simp only [take_clip, hs, hb]
  norm_num

/-- C5 (amended): a clip request supplying neither shape — no
`relative_seconds` and not both explicit bounds — is rejected with a
validation error and an empty effect trace; when `relative_seconds` is
present it takes precedence, the explicit bounds being ignored, so a
request supplying both shapes at once is processed as a relative
request rather than rejected. -/
theorem c5_shape_validation (cache : SessionCache) (req : ClipRequest)
    (session : Session) (id now dir : String)
    (hs : get_cached_session cache req.session_id = some session) :
    (req.relative_seconds = none →
      (req.start_seconds = none ∨ req.end_seconds = none) →
      take_clip cache req id now dir =
        ([], .error (.badRequest
          "Provide relative_seconds or start_seconds + end_seconds"))) ∧
    (∀ rel, req.relative_seconds = some rel →
      resolve_clip_bounds session req =
        resolve_clip_bounds session
          { session_id := req.session_id, relative_seconds := some rel }) := by
  constructor
  · intro h1 h2
    rcases h2 with h | h
    · simp [take_clip, hs, resolve_clip_bounds, h1, h]
    · rcases hst : req.start_seconds with _ | s <;>
        simp [take_clip, hs, resolve_clip_bounds, h1, h, hst]
  · intro rel hr
    unfold resolve_clip_bounds
    rw [hr]

/-- C5 witness: a request with neither shape is rejected, applied at a
concrete cached session. -/
theorem c5_shape_validation_witness :
    take_clip [("plex-1", movie_session)] { session_id := "plex-1" }
      "id6" "t6" "/data/captures" =
      ([], .error (.badRequest
        "Provide relative_seconds or start_seconds + end_seconds")) :=
  (c5_shape_validation [("plex-1", movie_session)]
    { session_id := "plex-1" } movie_session "id6" "t6" "/data/captures"
    rfl).1 rfl (Or.inl rfl)

end MediaSnap

namespace MediaSnap

/-! ## C7 -/

/-- Lookup in a cache rebuilt by the repopulation loop of
`get_all_sessions` succeeds exactly for the ids of the folded sessions or
of the accumulator it started from. -/
theorem lookup_rebuilt_cache (l : List Session) (acc : SessionCache)
    (sid : String) :
    ((l.foldl (fun c s => (s.session_id, s) :: c) acc).lookup sid).isSome ↔
      sid ∈ l.map Session.session_id ∨ (acc.lookup sid).isSome := by
  induction l generalizing acc with
  | nil => simp
  | cons s t ih =>
    simp only [List.foldl_cons, List.map_cons, List.mem_cons]
    rw [ih]
    have hcons : List.lookup sid ((s.session_id, s) :: acc) =
        if sid == s.session_id then some s else List.lookup sid acc := by
      simp only [List.lookup]
      cases hbe : sid == s.session_id <;> simp
    rw [hcons]
    by_cases h : sid = s.session_id
    · simp [h]
    · have hbe : (sid == s.session_id) = false := beq_eq_false_iff_ne.mpr h
      simp [hbe, h, or_assoc]

/-- C7: when one adapter raises and the other returns normally — in
either order — `get_all_sessions` returns exactly the succeeding adapter
sessions, and afterwards `get_cached_session` succeeds exactly for the
ids of that returned list, whatever the cache held before the refresh. -/
theorem c7_failure_isolation (old : SessionCache) (e : String)
    (l : List Session) :
    (get_all_sessions [.error e, .ok l] old).1 = l ∧
    (get_all_sessions [.ok l, .error e] old).1 = l ∧
    (∀ sid, (get_cached_session (get_all_sessions [.error e, .ok l] old).2
        sid).isSome ↔ sid ∈ l.map Session.session_id) ∧
    (∀ sid, (get_cached_session (get_all_sessions [.ok l, .error e] old).2
        sid).isSome ↔ sid ∈ l.map Session.session_id) := by
  refine ⟨?_, ?_, ?_, ?_⟩
  · simp [get_all_sessions, merge_adapter_results]
  · simp [get_all_sessions, merge_adapter_results]
  · intro sid
    simp only [get_all_sessions, get_cached_session, merge_adapter_results,
      List.foldl_cons, List.foldl_nil, List.nil_append]
    rw [lookup_rebuilt_cache]
    simp
  · intro sid
    simp only [get_all_sessions, get_cached_session, merge_adapter_results,
      List.foldl_cons, List.foldl_nil, List.nil_append]
    rw [lookup_rebuilt_cache]
    simp

end MediaSnap

namespace MediaSnap

/-! ## C8 -/

/-- Whether an effect is a status update of the captures table. -/
def is_status_update : Eff → Bool
  | .updateComplete _ _ => true
  | .updateFailed _ _ => true
  | _ => false

/-- C8: an accepted clip request inserts its record with status
`pending` before the handler returns (and the response also reads
`pending`); the detached `_process_clip` task then performs exactly one
status update on that id — `complete` with the measured size on success,
`failed` with the error text on failure, never both and nothing after;
screenshot records are never inserted in the `pending` state. -/
theorem c8_lifecycle (cache : SessionCache) (req : ClipRequest)
    (session : Session) (start stop : ℚ) (id now dir : String)
    (hs : get_cached_session cache req.session_id = some session)
    (hb : resolve_clip_bounds session req = .ok (start, stop))
    (hpos : 0 < stop - start) (hceil : stop - start ≤ 600) :
    (∃ r cap,
      take_clip cache req id now dir =
        ([.insertRow r,
          .spawnClipTask id session.media_path start (stop - start)
            (path_join dir (id ++ ".mp4"))], .ok cap) ∧
      r.status = "pending" ∧ r.id = id ∧ cap.status = "pending") ∧
    (∀ mp st d out size,
      (process_clip id mp st d out (.ok size)).filter is_status_update =
        [.updateComplete id size]) ∧
    (∀ mp st d out msg,
      (process_clip id mp st d out (.error msg)).filter is_status_update =
        [.updateFailed id msg]) ∧
    (∀ cache2 req2 ext id2 now2 dir2 r,
      .insertRow r ∈ (take_screenshot cache2 req2 ext id2 now2 dir2).1 →
      r.status ≠ "pending") := by
  refine ⟨?_, fun mp st d out size => rfl, fun mp st d out msg => rfl, ?_⟩
  · have h1 : ¬ stop - start ≤ 0 := by linarith
    have h2 : ¬ stop - start > 600 := by
      simp only [gt_iff_lt, not_lt]
      exact hceil
    have hres : take_clip cache req id now dir =
        ([.insertRow
            { id := id, source := session.source,
              media_title := media_title_of session,
              media_path := session.media_path, timestamp_seconds := start,
              capture_type := "clip",
              file_path := path_join dir (id ++ ".mp4"),
              file_name := id ++ ".mp4", file_size_bytes := 0,
              duration_seconds := some (stop - start), status := "pending",
              error_message := none, created_at := now },
          .spawnClipTask id session.media_path start (stop - start)
            (path_join dir (id ++ ".mp4"))],
         .ok
           { id := id, source := session.source,
             media_title := media_title_of session,
             timestamp_seconds := start, capture_type := "clip",
             file_name := id ++ ".mp4",
             file_url := "/captures/" ++ (id ++ ".mp4"),
             duration_seconds := some (stop - start), status := "pending",
             created_at := now }) := by
      simp [take_clip, hs, hb, h1, h2]
    exact ⟨_, _, hres, rfl, rfl, rfl⟩
  · intro cache2 req2 ext id2 now2 dir2 r hmem
    unfold take_screenshot at hmem
    cases hl : get_cached_session cache2 req2.session_id with
    | none =>
      rw [hl] at hmem
      simp at hmem
    | some s2 =>
      rw [hl] at hmem
      cases ext with
      | ok size =>
        simp at hmem
        subst hmem
        simp
      | error msg =>
        simp at hmem
        subst hmem
        simp

end MediaSnap

namespace MediaSnap

/-- C8 witness: the lifecycle theorem applied at a concrete accepted
clip request (last 30 seconds at position 200), together with the
background task facts at concrete arguments. -/
theorem c8_lifecycle_witness :
    (∃ r cap,
      take_clip [("plex-1", movie_session)]
        { session_id := "plex-1", relative_seconds := some (-30) }
        "id8" "t8" "/data/captures" =
        ([.insertRow r,
          .spawnClipTask "id8" movie_session.media_path 170 (200 - 170)
            (path_join "/data/captures" ("id8" ++ ".mp4"))], .ok cap) ∧
      r.status = "pending" ∧ r.id = "id8" ∧ cap.status = "pending") ∧
    (process_clip "id8" "/media/movie.mkv" 170 30 "/data/captures/id8.mp4"
        (.ok 5000)).filter is_status_update =
      [.updateComplete "id8" 5000] ∧
    (process_clip "id8" "/media/movie.mkv" 170 30 "/data/captures/id8.mp4"
        (.error "boom")).filter is_status_update =
      [.updateFailed "id8" "boom"] :=
  have happ := c8_lifecycle [("plex-1", movie_session)]
    { session_id := "plex-1", relative_seconds := some (-30) }
    movie_session 170 200 "id8" "t8" "/data/captures" rfl
    (by norm_num [resolve_clip_bounds, movie_session]) (by norm_num)
    (by norm_num)
  ⟨happ.1, happ.2.1 "/media/movie.mkv" 170 30 "/data/captures/id8.mp4" 5000,
   happ.2.2.1 "/media/movie.mkv" 170 30 "/data/captures/id8.mp4" "boom"⟩

/-! ## C9 -/

/-- C9 counterexample: for a Jellyfin episodic entry with season 0,
episode 5 and title Pilot the subtitle falls back to the episode title
Pilot, not to the empty subtitle the claim requires; and for a Plex
entry whose season attribute is the non-empty string 0 the formatted
S00E05 subtitle is produced even though the season number is zero. -/
theorem c9_counterexample :
    jellyfin_episode_subtitle 0 5 "Pilot" = "Pilot" ∧
    "Pilot" ≠ "" ∧
    plex_episode_subtitle "0" "5" "Pilot" = some "S00E05 — Pilot" := by
  refine ⟨rfl, by decide, ?_⟩
  decide

/-- C9 (amended): both adapters format the subtitle as
`S<season 2-digit>E<episode 2-digit> — <episode title>` exactly when
both numbers are truthy — for Jellyfin present and non-zero, for Plex
non-empty attribute strings (a present season of zero still counts) —
and otherwise fall back to the bare episode title as subtitle, which is
empty only when the episode title itself is. -/
theorem c9_subtitle_format (season ep : ℕ) (t : String)
    (ps pe pt : String) (sn en : ℕ) :
    (season ≠ 0 → ep ≠ 0 →
      jellyfin_episode_subtitle season ep t =
        "S" ++ pad2 season ++ "E" ++ pad2 ep ++ " — " ++ t) ∧
    (season = 0 ∨ ep = 0 → jellyfin_episode_subtitle season ep t = t) ∧
    (ps ≠ "" → pe ≠ "" → py_to_nat ps = some sn → py_to_nat pe = some en →
      plex_episode_subtitle ps pe pt =
        some ("S" ++ pad2 sn ++ "E" ++ pad2 en ++ " — " ++ pt)) ∧
    (ps = "" ∨ pe = "" → plex_episode_subtitle ps pe pt = some pt) := by
  refine ⟨?_, ?_, ?_, ?_⟩
  · intro h1 h2
    simp [jellyfin_episode_subtitle, h1, h2]
  · intro h
    rcases h with h | h <;> simp [jellyfin_episode_subtitle, h]
  · intro h1 h2 h3 h4
    simp [plex_episode_subtitle, h1, h2, h3, h4]
  · intro h
    rcases h with h | h <;> simp [plex_episode_subtitle, h]

/-- C9 witness: season 2, episode 5 formats S02E05 on both adapters;
season absent in Plex falls back to the bare episode title. -/
theorem c9_subtitle_format_witness :
    jellyfin_episode_subtitle 2 5 "Pilot" = "S02E05 — Pilot" ∧
    plex_episode_subtitle "2" "5" "Pilot" = some "S02E05 — Pilot" ∧
    plex_episode_subtitle "" "5" "Pilot" = some "Pilot" :=
  have happ := c9_subtitle_format 2 5 "Pilot" "2" "5" "Pilot" 2 5
  ⟨by rw [happ.1 (by decide) (by decide)]; decide,
   by rw [happ.2.2.1 (by decide) (by decide) (by decide) (by decide)]; decide,
   (c9_subtitle_format 2 5 "Pilot" "" "5" "Pilot" 0 5).2.2.2 (Or.inl rfl)⟩

end MediaSnap

namespace MediaSnap

/-! ## C10 -/

/-- C10: the listing endpoint constrains `limit` to `[1, 200]` with
default 50 and `offset` to be non-negative with default 0; a call
violating either constraint is rejected with a validation error whose
outcome does not depend on the stored rows (no store read), and a
successful call returns at most `limit` records. -/
theorem c10_listing_validation (limit_param offset_param : Option ℤ)
    (ct : Option String) (rows : List CaptureRecord) :
    ((limit_param.getD 50 < 1 ∨ 200 < limit_param.getD 50 ∨
        offset_param.getD 0 < 0) →
      list_captures limit_param offset_param ct rows =
        .error .queryValidation ∧
      ∀ rows2, list_captures limit_param offset_param ct rows =
        list_captures limit_param offset_param ct rows2) ∧
    (∀ out, list_captures limit_param offset_param ct rows = .ok out →
      out.length ≤ (limit_param.getD 50).toNat) ∧
    list_captures none none ct rows =
      .ok (((order_created_desc (filter_by_type rows ct)).drop 0).take 50) := by
  refine ⟨?_, ?_, ?_⟩
  · intro h
    constructor
    · simp [list_captures, h]
    · intro rows2
      simp [list_captures, h]
  · intro out hout
    by_cases h : (limit_param.getD 50 < 1 ∨ 200 < limit_param.getD 50 ∨
        offset_param.getD 0 < 0)
    · simp [list_captures, h] at hout
    · simp [list_captures, h] at hout
      rw [← hout]
      rw [List.length_take]
      exact min_le_left _ _
  · simp [list_captures]

/-- C10 witness: limit 300 is rejected whatever the store holds, and the
default call on an empty store returns no more than 50 rows. -/
theorem c10_listing_validation_witness :
    (list_captures (some 300) (some 0) none [] =
        .error .queryValidation ∧
      ∀ rows2, list_captures (some 300) (some 0) none [] =
        list_captures (some 300) (some 0) none rows2) ∧
    ((((order_created_desc (filter_by_type [] none)).drop 0).take 50).length ≤
      ((none : Option ℤ).getD 50).toNat) :=
  ⟨(c10_listing_validation (some 300) (some 0) none []).1 (by decide),
   (c10_listing_validation none none none []).2.1 _
     ((c10_listing_validation none none none []).2.2)⟩

end MediaSnap
